import Mathlib

/-!
Verification of the job-lifecycle tracker of the Sora Discord bot
(src/bot.py).  The Python source is shallowly embedded: JSON documents
become the inductive `Json`, the HTTP calls become oracles supplied as
explicit arguments, and each coroutine becomes a pure function producing
the list of observable events (messages sent, requests issued, tasks
spawned).  Exceptions become explicit outcome types.
-/

set_option maxHeartbeats 1000000
set_option maxRecDepth 4000

/-- A JSON value as Python's `json` module materialises it.  `null` doubles
as Python `None`. -/
inductive Json where
  | null
  | bool (b : Bool)
  | num (n : Int)
  | str (s : String)
  | arr (xs : List Json)
  | obj (fields : List (String × Json))

/-- First value bound to `key`, as in a Python dict (whose keys are unique). -/
def lookupField : List (String × Json) → String → Option Json
  | [], _ => none
  | (k, v) :: fs, key => if k = key then some v else lookupField fs key

/-- Python `d.get(k)`: the stored value, or `None` when the key is absent
(or the receiver is not a dict).  A stored JSON `null` and an absent key are
indistinguishable, exactly as in Python. -/
def Json.get (j : Json) (key : String) : Json :=
  match j with
  | .obj fs =>
    match lookupField fs key with
    | some v => v
    | none => .null
  | _ => .null

/-- Python truthiness of a parsed JSON value. -/
def Json.truthy : Json → Bool
  | .null => false
  | .bool b => b
  | .num n => n != 0
  | .str s => s != ""
  | .arr xs => !xs.isEmpty
  | .obj fs => !fs.isEmpty

mutual

/-- `j.hasStr s`: the string `s` occurs as a string value somewhere inside
`j` (used to state that an extracted URL really comes from the payload). -/
def Json.hasStr : Json → String → Bool
  | .str v, s => v == s
  | .arr xs, s => hasStrList xs s
  | .obj fs, s => hasStrFields fs s
  | _, _ => false

def hasStrList : List Json → String → Bool
  | [], _ => false
  | j :: js, s => j.hasStr s || hasStrList js s

def hasStrFields : List (String × Json) → String → Bool
  | [], _ => false
  | (_, v) :: fs, s => v.hasStr s || hasStrFields fs s

end

mutual

/-- Python `repr` of a parsed JSON value (how a dict is interpolated into an
f-string, e.g. in `RuntimeError(f"Video job failed: \x7bdata\x7d")`).
Escaping of quotes inside strings is not modelled; no claim depends on it. -/
def Json.render : Json → String
  | .null => "None"
  | .bool true => "True"
  | .bool false => "False"
  | .num n => toString n
  | .str s => "\x27" ++ s ++ "\x27"
  | .arr xs => "[" ++ renderList xs ++ "]"
  | .obj fs => "\x7b" ++ renderFields fs ++ "\x7d"

def renderList : List Json → String
  | [] => ""
  | [j] => j.render
  | j :: js => j.render ++ ", " ++ renderList js

def renderFields : List (String × Json) → String
  | [] => ""
  | [(k, v)] => "\x27" ++ k ++ "\x27: " ++ v.render
  | (k, v) :: fs => "\x27" ++ k ++ "\x27: " ++ v.render ++ ", " ++ renderFields fs

end

/-- Python `str` of a parsed JSON value: like `repr` except that a top-level
string is rendered bare (f-string interpolation of the job id, etc.). -/
def Json.pyStr : Json → String
  | .str s => s
  | j => j.render

-- ---- Configuration (src/bot.py lines 13, 19-21) ----

def ALLOWED_CHANNEL_NAME : String := "sora"
def DEFAULT_SIZE : String := "1280x720"
def DEFAULT_SECONDS_STD : String := "8"
def DEFAULT_SECONDS_PRO : String := "12"

-- ---- Asset Locator: extract_video_url (src/bot.py lines 99-123) ----

/-- `if isinstance(assets, dict)` and `isinstance(assets.get("video"), str)`
(src/bot.py lines 107-110). -/
def dict_video (assets : Json) : Option String :=
  match assets with
  | .obj _ =>
    match assets.get "video" with
    | .str vid => some vid
    | _ => none
  | _ => none

/-- Pattern 1 of `extract_video_url`:
`assets = final_payload.get("assets") or \x7b\x7d` (src/bot.py line 106),
then `dict_video`. -/
def assets_video_step (final_payload : Json) : Option String :=
  dict_video
    (if (final_payload.get "assets").truthy then final_payload.get "assets"
     else Json.obj [])

/-- Pattern 2 of `extract_video_url`:
`if isinstance(final_payload.get("url"), str)`. -/
def top_url_step (final_payload : Json) : Option String :=
  match final_payload.get "url" with
  | .str u => some u
  | _ => none

/-- `isinstance(first, dict) and isinstance(first.get("url"), str)`
(src/bot.py line 120). -/
def dict_url (first : Json) : Option String :=
  match first with
  | .obj _ =>
    match first.get "url" with
    | .str u => some u
    | _ => none
  | _ => none

/-- Pattern 3 of `extract_video_url`: `gens = final_payload.get("generations")`,
`if isinstance(gens, list) and gens` (src/bot.py lines 117-121), then
`dict_url` on the first entry. -/
def generations_step (final_payload : Json) : Option String :=
  match final_payload.get "generations" with
  | .arr (first :: _) => dict_url first
  | _ => none

/-- `extract_video_url` (src/bot.py lines 99-123): the three patterns are
tried in order, each `return` short-circuiting the rest; `None` otherwise. -/
def extract_video_url (final_payload : Json) : Option String :=
  match assets_video_step final_payload with
  | some vid => some vid
  | none =>
    match top_url_step final_payload with
    | some u => some u
    | none => generations_step final_payload

-- ---- Remote Job Client: create_video_job (src/bot.py lines 28-61) ----

/-- One HTTP response to the job-creation POST: status code, parsed JSON
body, and the raw body text (`await resp.text()`). -/
structure CreateResp where
  httpStatus : Nat
  body : Json
  bodyText : String

/-- The JSON body posted by `create_video_job` (src/bot.py lines 34-44):
`model = "sora-2-pro" if pro else "sora-2"`, then
`\x7bmodel, prompt, size, seconds\x7d`. -/
def create_payload (prompt : String) (pro : Bool) (size seconds : String) : Json :=
  let model := if pro then "sora-2-pro" else "sora-2"
  Json.obj [("model", Json.str model), ("prompt", Json.str prompt),
            ("size", Json.str size), ("seconds", Json.str seconds)]

/-- Result of `create_video_job`: the returned job id, or one of the two
`RuntimeError`s it raises. -/
inductive CreateOutcome where
  | ok (job_id : Json)
  | httpErr (status : Nat) (text : String)
  | noId (body : Json)

/-- `create_video_job` (src/bot.py lines 28-61).  `http` maps the posted
payload to the service's response.  `resp.status >= 400` raises
`RuntimeError(f"OpenAI create video error \x7bresp.status\x7d: \x7btext\x7d")`;
a falsy `data.get("id")` raises
`RuntimeError(f"OpenAI did not return an id: \x7bdata\x7d")`. -/
def create_video_job (prompt : String) (pro : Bool) (size seconds : String)
    (http : Json → CreateResp) : CreateOutcome :=
  let payload := create_payload prompt pro size seconds
  let resp := http payload
  if resp.httpStatus ≥ 400 then
    CreateOutcome.httpErr resp.httpStatus resp.bodyText
  else
    let job_id := resp.body.get "id"
    if job_id.truthy then CreateOutcome.ok job_id else CreateOutcome.noId resp.body

-- ---- Remote Job Client: poll loop (src/bot.py lines 64-96) ----

/-- One HTTP response to a poll GET, together with `now`, the event-loop
time at which this iteration's deadline check
(`asyncio.get_event_loop().time() > stop`) would read the clock. -/
structure PollResp where
  httpStatus : Nat
  body : Json
  bodyText : String
  now : Int

/-- `status in ("succeeded", "completed", "ready")` (src/bot.py line 88). -/
def isSuccessStatus (s : Json) : Bool :=
  match s with
  | .str v => v == "succeeded" || v == "completed" || v == "ready"
  | _ => false

/-- `status in ("failed", "error", "cancelled")` (src/bot.py line 90). -/
def isFailStatus (s : Json) : Bool :=
  match s with
  | .str v => v == "failed" || v == "error" || v == "cancelled"
  | _ => false

/-- How `poll_video_until_ready` terminates: the returned final payload, or
one of the exceptions it raises.  `outOfTrace` is a model artifact: the
supplied finite response trace ran out while the real loop would continue
polling. -/
inductive PollOutcome where
  | success (payload : Json)
  | failure (payload : Json)
  | pollError (status : Nat) (text : String)
  | timeout
  | outOfTrace

/-- Discriminator for the model-artifact case. -/
def PollOutcome.isOutOfTrace : PollOutcome → Bool
  | .outOfTrace => true
  | _ => false

/-- The `while True` loop of `poll_video_until_ready` (src/bot.py lines
76-96), consuming one supplied response per iteration.  Within an iteration
the order is exactly that of the source: HTTP-error check, terminal-status
classification, then the deadline check, then sleep and loop.  The second
component counts poll requests issued. -/
def pollLoop (stop : Int) : List PollResp → PollOutcome × Nat
  | [] => (PollOutcome.outOfTrace, 0)
  | r :: rest =>
    if r.httpStatus ≥ 400 then (PollOutcome.pollError r.httpStatus r.bodyText, 1)
    else if isSuccessStatus (r.body.get "status") then (PollOutcome.success r.body, 1)
    else if isFailStatus (r.body.get "status") then (PollOutcome.failure r.body, 1)
    else if r.now > stop then (PollOutcome.timeout, 1)
    else ((pollLoop stop rest).1, (pollLoop stop rest).2 + 1)

/-- `poll_video_until_ready` (src/bot.py lines 64-96): `stop` is the
event-loop time at entry (`t0`) plus `timeout_sec`.  `poll_every` only
shapes the (supplied) clock values, so it has no separate model. -/
def poll_video_until_ready (t0 timeout_sec : Int) (resps : List PollResp) :
    PollOutcome × Nat :=
  pollLoop (t0 + timeout_sec) resps

-- ---- Remote Job Client: fetch_video_bytes (src/bot.py lines 193-219) ----

/-- One HTTP response from a candidate content endpoint. -/
structure FetchResp where
  httpStatus : Nat
  data : List UInt8
  contentType : String
  bodyText : String

/-- Result of `fetch_video_bytes`: the bytes and inferred extension, or the
`RuntimeError` carrying the last candidate's `f"\x7bstatus\x7d \x7btext\x7d"`
(`none` would mean Python's initial `last_error = None`). -/
inductive FetchOutcome where
  | ok (data : List UInt8) (ext : String)
  | err (lastError : Option String)
deriving DecidableEq

/-- Extension inference (src/bot.py lines 214-215):
`ctype = resp.headers.get("Content-Type", "").lower()` then
`".mp4" if "mp4" in ctype or not ctype else (".webm" if "webm" in ctype else ".mp4")`. -/
def charsBeginWith : List Char → List Char → Bool
  | [], _ => true
  | _ :: _, [] => false
  | p :: ps, c :: cs => p == c && charsBeginWith ps cs

/-- `pat in s` on the underlying character lists. -/
def charsContain (pat : List Char) : List Char → Bool
  | [] => charsBeginWith pat []
  | c :: cs => charsBeginWith pat (c :: cs) || charsContain pat cs

/-- Python's substring test `pat in s`. -/
def strContains (s pat : String) : Bool :=
  charsContain pat.data s.data

/-- See `charsBeginWith`: the extension chosen from the Content-Type header. -/
def inferExt (ctypeRaw : String) : String :=
  let ctype := ctypeRaw.toLower
  if strContains ctype "mp4" || ctype == "" then ".mp4"
  else if strContains ctype "webm" then ".webm"
  else ".mp4"

/-- The candidate content endpoints, in source order (src/bot.py 201-206). -/
def candidates (job_id : String) : List String :=
  ["https://api.openai.com/v1/videos/" ++ job_id ++ "/content",
   "https://api.openai.com/v1/videos/" ++ job_id ++ "/content/video"]

/-- The `for url in candidates` loop of `fetch_video_bytes` (src/bot.py
lines 208-219): a response with status exactly 200 wins, every other status
overwrites `last_error` with `f"\x7bresp.status\x7d \x7btext\x7d"`. -/
def fetchLoop : List FetchResp → Option String → FetchOutcome
  | [], lastError => FetchOutcome.err lastError
  | r :: rest, _lastError =>
    if r.httpStatus = 200 then FetchOutcome.ok r.data (inferExt r.contentType)
    else fetchLoop rest (some (toString r.httpStatus ++ " " ++ r.bodyText))

/-- `fetch_video_bytes` (src/bot.py lines 193-219).  `http` maps each
candidate URL to its response. -/
def fetch_video_bytes (job_id : String) (http : String → FetchResp) : FetchOutcome :=
  fetchLoop ((candidates job_id).map http) none

-- ---- Job Tracker: _track_and_post (src/bot.py lines 151-190) ----

/-- A message successfully delivered to the channel by `channel.send`. -/
inductive Msg where
  | text (content : String)
  | withFile (content : String) (filename : String) (data : List UInt8)

/-- Environment of one background tracking task: the poll responses its GETs
would receive (with clock values), the content-endpoint oracle, and whether
the attachment upload is accepted by Discord (`uploadOk = false` models
`channel.send(..., file=...)` raising `discord.HTTPException`).  Plain text
sends are modelled as always delivered. -/
structure TrackEnv where
  pollResps : List PollResp
  fetchHttp : String → FetchResp
  uploadOk : Bool

/-- Observable outcome of one background tracking task: the delivered
messages, the number of poll requests issued, and whether any content
endpoint was contacted. -/
structure TrackOut where
  msgs : List Msg
  polls : Nat
  fetchAttempted : Bool

/-- Python `f"\x7bx\x7d"` of `last_error : str | None`. -/
def pyOptStr : Option String → String
  | none => "None"
  | some s => s

/-- Decimal rendering of `len(data) / 1_000_000` with one fractional digit,
mirroring the f-string's `:.1f` (src/bot.py line 180).  Rounds half up where
the float formatting rounds half to even; no claim depends on ties. -/
def formatMB (len : Nat) : String :=
  let tenths := (len * 10 + 500000) / 1000000
  toString (tenths / 10) ++ "." ++ toString (tenths % 10)

/-- `_track_and_post` (src/bot.py lines 151-190), called with
`timeout_sec=900, poll_every=3.0` (line 154).  `if video_url:` (line 159)
is Python truthiness on `str | None`: only a non-empty extracted URL takes
the fast path, while `None` and `""` both fall through to the binary
fetch.  Each arm reproduces the corresponding `channel.send` f-string; the
`except` arms interpolate `\x7be\x7d` as the raised exception's message. -/
def track_and_post (title prompt job_id : String) (env : TrackEnv) (t0 : Int) :
    TrackOut :=
  let pr := poll_video_until_ready t0 900 env.pollResps
  match pr.1 with
  | PollOutcome.success final =>
    let fallback : TrackOut :=
      match fetch_video_bytes job_id env.fetchHttp with
      | FetchOutcome.ok data ext =>
        if env.uploadOk then
          ⟨[Msg.withFile ("✅ **" ++ title ++ "** result for `" ++ prompt ++ "` (uploaded)")
              (job_id ++ ext) data], pr.2, true⟩
        else
          ⟨[Msg.text ("✅ Generated, but I couldn’t upload the file (likely too large). "
              ++ "File size was ~" ++ formatMB data.length ++ " MB. "
              ++ "Consider increasing Discord upload limits, or we can auto-upload to a storage bucket and link here.")],
           pr.2, true⟩
      | FetchOutcome.err lastError =>
        ⟨[Msg.text ("⚠️ Error while generating `" ++ prompt ++ "`: `"
            ++ "Unable to fetch video content. Last error: " ++ pyOptStr lastError ++ "`")],
         pr.2, true⟩
    match extract_video_url final with
    | some video_url =>
      if video_url != "" then
        ⟨[Msg.text ("✅ **" ++ title ++ "** result for `" ++ prompt ++ "`\n" ++ video_url)],
         pr.2, false⟩
      else fallback
    | none => fallback
  | PollOutcome.failure data =>
    ⟨[Msg.text ("⚠️ Error while generating `" ++ prompt ++ "`: `"
        ++ "Video job failed: " ++ Json.render data ++ "`")], pr.2, false⟩
  | PollOutcome.pollError st text =>
    ⟨[Msg.text ("⚠️ Error while generating `" ++ prompt ++ "`: `"
        ++ "OpenAI poll error " ++ toString st ++ ": " ++ text ++ "`")], pr.2, false⟩
  | PollOutcome.timeout =>
    ⟨[Msg.text ("⏳ Still generating `" ++ prompt ++ "` (job `" ++ job_id
        ++ "`)… I’ll keep checking.")], pr.2, false⟩
  | PollOutcome.outOfTrace => ⟨[], pr.2, false⟩

-- ---- Tracker entry point: generate_and_send (src/bot.py lines 126-190) ----

/-- Environment of one slash-command invocation: the originating channel's
name (`none` models `interaction.channel is None`) and the creation-POST
oracle. -/
structure GenEnv where
  channelName : Option String
  http : Json → CreateResp

/-- Observable steps of `generate_and_send`, in order: the ephemeral
rejection, `interaction.response.defer(thinking=True)`, the creation POST,
each `interaction.followup.send`, and `asyncio.create_task(_track_and_post ...)`. -/
inductive GenEvent where
  | ephemeralReply (content : String)
  | deferAck
  | createRequest (payload : Json)
  | followup (content : String)
  | spawnTask (title prompt : String) (job_id : Json)

/-- `generate_and_send` (src/bot.py lines 126-190) up to and including the
spawn of the background task (whose own behaviour is `track_and_post`). -/
def generate_and_send (prompt : String) (pro : Bool) (env : GenEnv) :
    List GenEvent :=
  let reject :=
    [GenEvent.ephemeralReply ("Please use this command in #" ++ ALLOWED_CHANNEL_NAME ++ ".")]
  match env.channelName with
  | none => reject
  | some name =>
    if name != ALLOWED_CHANNEL_NAME then reject
    else
      let seconds := if pro then DEFAULT_SECONDS_PRO else DEFAULT_SECONDS_STD
      let payload := create_payload prompt pro DEFAULT_SIZE seconds
      match create_video_job prompt pro DEFAULT_SIZE seconds env.http with
      | CreateOutcome.httpErr st text =>
        [GenEvent.deferAck, GenEvent.createRequest payload,
         GenEvent.followup ("⚠️ Failed to start generation: `"
           ++ "OpenAI create video error " ++ toString st ++ ": " ++ text ++ "`")]
      | CreateOutcome.noId body =>
        [GenEvent.deferAck, GenEvent.createRequest payload,
         GenEvent.followup ("⚠️ Failed to start generation: `"
           ++ "OpenAI did not return an id: " ++ Json.pyStr body ++ "`")]
      | CreateOutcome.ok jid =>
        let title := if pro then "Sora 2 Pro" else "Sora 2"
        [GenEvent.deferAck, GenEvent.createRequest payload,
         GenEvent.followup ("🎬 **" ++ title ++ "** job started for: `" ++ prompt
           ++ "`\n🆔 Job: `" ++ Json.pyStr jid
           ++ "`\nI\x27ll post the video here when it\x27s ready."),
         GenEvent.spawnTask title prompt jid]

-- ---- Concrete inputs used by witnesses and counterexamples ----

def c10_resp : PollResp := ⟨200, Json.obj [("status", Json.str "succeeded")], "", 50⟩

def c8_env : GenEnv := ⟨some "general", fun _ => ⟨200, Json.null, ""⟩⟩

def c3_env : GenEnv := ⟨some "sora", fun _ => ⟨500, Json.null, "internal error"⟩⟩

def c7_env : GenEnv := ⟨some "sora", fun _ => ⟨200, Json.obj [("id", Json.str "job_1")], ""⟩⟩

/-- Numeric value of a decimal digit string, as Python `int(s)` would read
the duration strings `"4" | "8" | "12"`. -/
def pyInt (s : String) : Nat :=
  s.data.foldl (fun n c => n * 10 + (c.toNat - Char.toNat '0')) 0

def c2_payload : Json :=
  Json.obj [("assets", Json.obj [("video", Json.str "https://x/y.mp4")]),
            ("url", Json.str "https://top/url.mp4"),
            ("generations", Json.arr [Json.obj [("url", Json.str "https://gen/url.mp4")]])]

def c2_no_shape : Json :=
  Json.obj [("assets", Json.str "oops"), ("url", Json.num 3),
            ("generations", Json.arr [])]

def c1_http : String → FetchResp := fun _ => ⟨404, [], "", ""⟩

def c1_pre : List PollResp := [⟨200, Json.obj [("status", Json.str "queued")], "", 100⟩]

def c1_r : PollResp := ⟨200, Json.obj [("status", Json.str "in_progress")], "", 901⟩

def c1_post : List PollResp := [⟨200, Json.obj [("status", Json.str "succeeded")], "", 905⟩]

def c4_resp201 : FetchResp := ⟨201, [7, 7], "video/mp4", "created"⟩

def c4_resp404 : FetchResp := ⟨404, [], "", "not found"⟩

def c4_resp200 : FetchResp := ⟨200, [1, 2, 3], "video/mp4", ""⟩

def c4_http : String → FetchResp := fun u =>
  if u = "https://api.openai.com/v1/videos/" ++ "job_1" ++ "/content" then c4_resp404
  else c4_resp200

def c5url_final : Json :=
  Json.obj [("status", Json.str "succeeded"),
            ("assets", Json.obj [("video", Json.str "https://x/y.mp4")])]

def c5url_env : TrackEnv := ⟨[⟨200, c5url_final, "", 1⟩], fun _ => ⟨404, [], "", ""⟩, true⟩

def c5bin_final : Json := Json.obj [("status", Json.str "succeeded")]

def c5bin_env : TrackEnv :=
  ⟨[⟨200, c5bin_final, "", 1⟩], fun _ => ⟨200, [9, 9], "video/mp4", ""⟩, true⟩

def c6_bigDetail : String := String.mk (List.replicate 2500 'x')

def c6_failPayload : Json :=
  Json.obj [("status", Json.str "failed"), ("detail", Json.str c6_bigDetail)]

def c6_env : TrackEnv :=
  ⟨[⟨200, c6_failPayload, "", 1⟩], fun _ => ⟨404, [], "", ""⟩, true⟩

def c6w_env : TrackEnv :=
  ⟨[⟨200, Json.obj [("status", Json.str "queued")], "", 901⟩],
   fun _ => ⟨404, [], "", ""⟩, true⟩

def c5e_final : Json :=
  Json.obj [("status", Json.str "succeeded"),
            ("assets", Json.obj [("video", Json.str "")])]

def c5e_env : TrackEnv :=
  ⟨[⟨200, c5e_final, "", 1⟩], fun _ => ⟨200, [9, 9], "video/mp4", ""⟩, true⟩

-- ---- Helper lemmas ----

theorem hasStrFields_of_lookupField {fs : List (String × Json)} {k : String}
    {v : Json} {s : String} (hl : lookupField fs k = some v)
    (hv : v.hasStr s = true) : hasStrFields fs s = true := by
  induction fs with
  | nil => simp [lookupField] at hl
  | cons kv fs ih =>
    obtain ⟨k0, v0⟩ := kv
    simp only [lookupField] at hl
    by_cases h : k0 = k
    · rw [if_pos h] at hl
      cases hl
      simp [hasStrFields, hv]
    · rw [if_neg h] at hl
      simp [hasStrFields, ih hl]

theorem Json.hasStr_get {p : Json} {k s : String}
    (h : (p.get k).hasStr s = true) : p.hasStr s = true := by
  cases p with
  | obj fs =>
    simp only [Json.get] at h
    cases hl : lookupField fs k with
    | none => rw [hl] at h; simp [Json.hasStr] at h
    | some v =>
      rw [hl] at h
      simp only [Json.hasStr]
      exact hasStrFields_of_lookupField hl h
  | null => simp [Json.get, Json.hasStr] at h
  | bool b => simp [Json.get, Json.hasStr] at h
  | num n => simp [Json.get, Json.hasStr] at h
  | str v => simp [Json.get, Json.hasStr] at h
  | arr xs => simp [Json.get, Json.hasStr] at h

theorem isFail_not_isSuccess {s : Json} (h : isFailStatus s = true) :
    isSuccessStatus s = false := by
  cases s with
  | str v =>
    simp only [isFailStatus, Bool.or_eq_true, beq_iff_eq] at h
    rcases h with (h | h) | h <;> subst h <;> rfl
  | null => rfl
  | bool b => rfl
  | num n => rfl
  | arr xs => rfl
  | obj fs => rfl

-- ---- Claims ----

/-- Claim C10: in `poll_video_until_ready` the deadline check happens after
the status classification within each loop iteration, so at least one poll
request is always issued regardless of the timeout value (even a zero or
negative budget), and a terminal status observed on a poll at or past the
deadline is still classified as success or failure rather than as a timeout. -/
theorem poll_classifies_before_deadline_check
    (t0 timeout_sec : Int) (r : PollResp) (rest : List PollResp) :
    1 ≤ (poll_video_until_ready t0 timeout_sec (r :: rest)).2
  ∧ (r.httpStatus < 400 → isSuccessStatus (r.body.get "status") = true →
      t0 + timeout_sec ≤ r.now →
      poll_video_until_ready t0 timeout_sec (r :: rest) = (PollOutcome.success r.body, 1))
  ∧ (r.httpStatus < 400 → isFailStatus (r.body.get "status") = true →
      t0 + timeout_sec ≤ r.now →
      poll_video_until_ready t0 timeout_sec (r :: rest) = (PollOutcome.failure r.body, 1)) := by
  refine ⟨?_, ?_, ?_⟩
  · show 1 ≤ (pollLoop (t0 + timeout_sec) (r :: rest)).2
    simp only [pollLoop]
    split
    · simp
    split
    · simp
    split
    · simp
    split
    · simp
    · simp
  · intro h1 h2 _h3
    show pollLoop (t0 + timeout_sec) (r :: rest) = (PollOutcome.success r.body, 1)
    simp only [pollLoop]
    rw [if_neg (by omega), if_pos h2]
  · intro h1 h2 _h3
    show pollLoop (t0 + timeout_sec) (r :: rest) = (PollOutcome.failure r.body, 1)
    simp only [pollLoop]
    rw [if_neg (by omega), if_neg (by simp [isFail_not_isSuccess h2]), if_pos h2]

/-- Witness for C10 at a concrete input: timeout budget 0, a first poll whose
clock reading is already past the deadline but whose status is terminal. -/
theorem poll_classifies_before_deadline_check_witness :
    c10_resp.httpStatus < 400
  ∧ isSuccessStatus (c10_resp.body.get "status") = true
  ∧ (0 : Int) + 0 ≤ c10_resp.now
  ∧ poll_video_until_ready 0 0 [c10_resp] = (PollOutcome.success c10_resp.body, 1) :=
  ⟨by decide, by decide, by decide,
   (poll_classifies_before_deadline_check 0 0 c10_resp []).2.1
     (by decide) (by decide) (by decide)⟩

/-- Claim C8: a request from a channel that is not the designated one (or
from no channel at all) gets the ephemeral rejection notice and nothing
else: no defer, no creation call, no acknowledgment, no spawned task. -/
theorem wrong_channel_ephemeral_rejection
    (prompt : String) (pro : Bool) (env : GenEnv)
    (h : ∀ name, env.channelName = some name → name ≠ ALLOWED_CHANNEL_NAME) :
    generate_and_send prompt pro env =
      [GenEvent.ephemeralReply
        ("Please use this command in #" ++ ALLOWED_CHANNEL_NAME ++ ".")] := by
  unfold generate_and_send
  cases hc : env.channelName with
  | none => rfl
  | some name =>
    have hne := h name hc
    simp [hne]

/-- Witness for C8: a request from `#general`. -/
theorem wrong_channel_ephemeral_rejection_witness :
    generate_and_send "a cat" false c8_env =
      [GenEvent.ephemeralReply
        ("Please use this command in #" ++ ALLOWED_CHANNEL_NAME ++ ".")] :=
  wrong_channel_ephemeral_rejection "a cat" false c8_env
    (by intro name h; injection h with h; subst h; decide)

/-- Claim C3: a job creation call answered with a 4xx/5xx status makes the
Tracker abort before spawning any background task; the only events are the
defer, the creation request, and one followup message carrying the response
status code and body verbatim. -/
theorem create_error_aborts_before_spawn
    (prompt : String) (pro : Bool) (env : GenEnv) (resp : CreateResp)
    (hch : env.channelName = some ALLOWED_CHANNEL_NAME)
    (hresp : env.http (create_payload prompt pro DEFAULT_SIZE
        (if pro then DEFAULT_SECONDS_PRO else DEFAULT_SECONDS_STD)) = resp)
    (h4xx : 400 ≤ resp.httpStatus) (_h5xx : resp.httpStatus ≤ 599) :
    generate_and_send prompt pro env =
      [GenEvent.deferAck,
       GenEvent.createRequest (create_payload prompt pro DEFAULT_SIZE
         (if pro then DEFAULT_SECONDS_PRO else DEFAULT_SECONDS_STD)),
       GenEvent.followup ("⚠️ Failed to start generation: `"
         ++ "OpenAI create video error " ++ toString resp.httpStatus ++ ": "
         ++ resp.bodyText ++ "`")] := by
  unfold generate_and_send create_video_job
  rw [hch]
  simp only [bne_self_eq_false, if_false, Bool.false_eq_true]
  rw [hresp, if_pos h4xx]

/-- Witness for C3: the creation POST answered with status 500 and body
`internal error`. -/
theorem create_error_aborts_before_spawn_witness :
    c3_env.channelName = some ALLOWED_CHANNEL_NAME
  ∧ (400 : Nat) ≤ 500 ∧ (500 : Nat) ≤ 599
  ∧ generate_and_send "a cat" false c3_env =
      [GenEvent.deferAck,
       GenEvent.createRequest (create_payload "a cat" false DEFAULT_SIZE DEFAULT_SECONDS_STD),
       GenEvent.followup ("⚠️ Failed to start generation: `"
         ++ "OpenAI create video error " ++ toString (500 : Nat) ++ ": "
         ++ "internal error" ++ "`")] :=
  ⟨rfl, by decide, by decide,
   create_error_aborts_before_spawn "a cat" false c3_env
     ⟨500, Json.null, "internal error"⟩ rfl rfl (by decide) (by decide)⟩

/-- Whenever the channel check passes, the trace of `generate_and_send`
starts with the defer and the creation request built from the tier's model
and default duration, whatever the creation call then returns. -/
theorem generate_ok_shape (prompt : String) (pro : Bool) (env : GenEnv)
    (hch : env.channelName = some ALLOWED_CHANNEL_NAME) :
    ∃ rest, generate_and_send prompt pro env =
      GenEvent.deferAck
        :: GenEvent.createRequest (create_payload prompt pro DEFAULT_SIZE
             (if pro then DEFAULT_SECONDS_PRO else DEFAULT_SECONDS_STD))
        :: rest := by
  unfold generate_and_send
  rw [hch]
  simp only [bne_self_eq_false, if_false, Bool.false_eq_true]
  rcases hcv : create_video_job prompt pro DEFAULT_SIZE
      (if pro then DEFAULT_SECONDS_PRO else DEFAULT_SECONDS_STD) env.http with
    jid | ⟨st, text⟩ | body <;> exact ⟨_, rfl⟩

/-- Claim C7: the tier picks both the remote model identifier and the
default duration posted to the service — Pro gives model `sora-2-pro` with
seconds `"12"`, Standard gives `sora-2` with `"8"` — and the Pro default
duration is strictly longer numerically. -/
theorem tier_determines_model_and_duration
    (prompt : String) (env : GenEnv)
    (hch : env.channelName = some ALLOWED_CHANNEL_NAME) :
    (∃ rest, generate_and_send prompt true env =
        GenEvent.deferAck
          :: GenEvent.createRequest (create_payload prompt true DEFAULT_SIZE DEFAULT_SECONDS_PRO)
          :: rest)
  ∧ (∃ rest, generate_and_send prompt false env =
        GenEvent.deferAck
          :: GenEvent.createRequest (create_payload prompt false DEFAULT_SIZE DEFAULT_SECONDS_STD)
          :: rest)
  ∧ (create_payload prompt true DEFAULT_SIZE DEFAULT_SECONDS_PRO).get "model"
      = Json.str "sora-2-pro"
  ∧ (create_payload prompt false DEFAULT_SIZE DEFAULT_SECONDS_STD).get "model"
      = Json.str "sora-2"
  ∧ (create_payload prompt true DEFAULT_SIZE DEFAULT_SECONDS_PRO).get "seconds"
      = Json.str "12"
  ∧ (create_payload prompt false DEFAULT_SIZE DEFAULT_SECONDS_STD).get "seconds"
      = Json.str "8"
  ∧ pyInt DEFAULT_SECONDS_STD < pyInt DEFAULT_SECONDS_PRO := by
  exact ⟨generate_ok_shape prompt true env hch, generate_ok_shape prompt false env hch,
    rfl, rfl, rfl, rfl, by decide⟩

/-- Witness for C7: a request in the designated channel; the Pro payload
carries model `sora-2-pro`. -/
theorem tier_determines_model_and_duration_witness :
    c7_env.channelName = some ALLOWED_CHANNEL_NAME
  ∧ (create_payload "a cat" true DEFAULT_SIZE DEFAULT_SECONDS_PRO).get "model"
      = Json.str "sora-2-pro" :=
  ⟨rfl, (tier_determines_model_and_duration "a cat" c7_env rfl).2.2.1⟩

theorem dict_video_hasStr {a : Json} {v : String}
    (h : dict_video a = some v) : a.hasStr v = true := by
  cases a with
  | obj fs =>
    unfold dict_video at h
    cases hv : (Json.obj fs).get "video" with
    | str vid =>
      rw [hv] at h
      injection h with h
      have h2 : ((Json.obj fs).get "video").hasStr v = true := by
        rw [hv, h]
        simp [Json.hasStr]
      exact Json.hasStr_get h2
    | null => rw [hv] at h; simp at h
    | bool b => rw [hv] at h; simp at h
    | num n => rw [hv] at h; simp at h
    | arr xs => rw [hv] at h; simp at h
    | obj gs => rw [hv] at h; simp at h
  | null => simp [dict_video] at h
  | bool b => simp [dict_video] at h
  | num n => simp [dict_video] at h
  | str t => simp [dict_video] at h
  | arr xs => simp [dict_video] at h

theorem assets_video_step_hasStr {p : Json} {v : String}
    (h : assets_video_step p = some v) : p.hasStr v = true := by
  unfold assets_video_step at h
  by_cases ht : (p.get "assets").truthy = true
  · rw [if_pos ht] at h
    exact Json.hasStr_get (dict_video_hasStr h)
  · rw [if_neg ht] at h
    simp [dict_video, Json.get, lookupField] at h

theorem top_url_step_hasStr {p : Json} {u : String}
    (h : top_url_step p = some u) : p.hasStr u = true := by
  unfold top_url_step at h
  cases hv : p.get "url" with
  | str t =>
    rw [hv] at h
    injection h with h
    have h2 : (p.get "url").hasStr u = true := by
      rw [hv, h]
      simp [Json.hasStr]
    exact Json.hasStr_get h2
  | null => rw [hv] at h; simp at h
  | bool b => rw [hv] at h; simp at h
  | num n => rw [hv] at h; simp at h
  | arr xs => rw [hv] at h; simp at h
  | obj fs => rw [hv] at h; simp at h

theorem dict_url_hasStr {a : Json} {u : String}
    (h : dict_url a = some u) : a.hasStr u = true := by
  cases a with
  | obj fs =>
    unfold dict_url at h
    cases hv : (Json.obj fs).get "url" with
    | str t =>
      rw [hv] at h
      injection h with h
      have h2 : ((Json.obj fs).get "url").hasStr u = true := by
        rw [hv, h]
        simp [Json.hasStr]
      exact Json.hasStr_get h2
    | null => rw [hv] at h; simp at h
    | bool b => rw [hv] at h; simp at h
    | num n => rw [hv] at h; simp at h
    | arr xs => rw [hv] at h; simp at h
    | obj gs => rw [hv] at h; simp at h
  | null => simp [dict_url] at h
  | bool b => simp [dict_url] at h
  | num n => simp [dict_url] at h
  | str t => simp [dict_url] at h
  | arr xs => simp [dict_url] at h

theorem generations_step_hasStr {p : Json} {u : String}
    (h : generations_step p = some u) : p.hasStr u = true := by
  unfold generations_step at h
  cases hg : p.get "generations" with
  | arr xs =>
    rw [hg] at h
    cases xs with
    | nil => simp at h
    | cons first rest =>
      have h3 : first.hasStr u = true := dict_url_hasStr h
      have h4 : (p.get "generations").hasStr u = true := by
        rw [hg]
        simp [Json.hasStr, hasStrList, h3]
      exact Json.hasStr_get h4
  | null => rw [hg] at h; simp at h
  | bool b => rw [hg] at h; simp at h
  | num n => rw [hg] at h; simp at h
  | str t => rw [hg] at h; simp at h
  | obj fs => rw [hg] at h; simp at h

/-- Claim C2: a terminal payload whose `assets` dict holds a string `video`
entry makes `extract_video_url` return exactly that string, whatever the
top-level `url` field and the `generations` list hold; and a payload
matching none of the three probed shapes yields `none`. -/
theorem assets_video_priority_and_none_when_no_shape (p : Json) :
    (∀ afs v, p.get "assets" = Json.obj afs →
       (Json.obj afs).get "video" = Json.str v →
       extract_video_url p = some v)
  ∧ (assets_video_step p = none → top_url_step p = none →
       generations_step p = none → extract_video_url p = none) := by
  constructor
  · intro afs v hA hV
    have h1 : assets_video_step p = some v := by
      unfold assets_video_step
      rw [hA]
      cases afs with
      | nil => simp [Json.get, lookupField] at hV
      | cons kv afs2 =>
        have ht : (Json.obj (kv :: afs2)).truthy = true := by simp [Json.truthy]
        rw [if_pos ht]
        unfold dict_video
        rw [hV]
    unfold extract_video_url
    rw [h1]
  · intro h1 h2 h3
    unfold extract_video_url
    simp only [h1, h2, h3]

/-- Witness for C2: a payload carrying all three shapes at once (the nested
assets URL wins), and a payload matching none of the shapes (string assets,
numeric url, empty generations). -/
theorem assets_video_priority_and_none_when_no_shape_witness :
    c2_payload.get "assets" = Json.obj [("video", Json.str "https://x/y.mp4")]
  ∧ (Json.obj [("video", Json.str "https://x/y.mp4")]).get "video"
      = Json.str "https://x/y.mp4"
  ∧ extract_video_url c2_payload = some "https://x/y.mp4"
  ∧ assets_video_step c2_no_shape = none
  ∧ top_url_step c2_no_shape = none
  ∧ generations_step c2_no_shape = none
  ∧ extract_video_url c2_no_shape = none :=
  ⟨rfl, rfl,
   (assets_video_priority_and_none_when_no_shape c2_payload).1 _ _ rfl rfl,
   rfl, rfl, rfl,
   (assets_video_priority_and_none_when_no_shape c2_no_shape).2 rfl rfl rfl⟩

/-- Claim C9: `extract_video_url` is total over arbitrary payloads — in this
embedding it is a total function, and every mismatched shape falls through
to the next probe — and its result is either `none` or a string value taken
from the payload itself. -/
theorem extract_total_and_from_payload (p : Json) :
    extract_video_url p = none
  ∨ ∃ s, extract_video_url p = some s ∧ p.hasStr s = true := by
  unfold extract_video_url
  cases h1 : assets_video_step p with
  | some v => exact Or.inr ⟨v, rfl, assets_video_step_hasStr h1⟩
  | none =>
    cases h2 : top_url_step p with
    | some u => exact Or.inr ⟨u, rfl, top_url_step_hasStr h2⟩
    | none =>
      cases h3 : generations_step p with
      | some u => exact Or.inr ⟨u, rfl, generations_step_hasStr h3⟩
      | none => exact Or.inl rfl

/-- Responses that are neither HTTP errors nor terminal nor past the
deadline are consumed by the poll loop without changing the outcome, each
adding one issued poll. -/
theorem pollLoop_append_nonterminal (stop : Int) (pre rest : List PollResp)
    (h : ∀ q ∈ pre, q.httpStatus < 400
        ∧ isSuccessStatus (q.body.get "status") = false
        ∧ isFailStatus (q.body.get "status") = false
        ∧ ¬ (q.now > stop)) :
    pollLoop stop (pre ++ rest) =
      ((pollLoop stop rest).1, (pollLoop stop rest).2 + pre.length) := by
  induction pre with
  | nil => simp
  | cons q pre ih =>
    obtain ⟨h1, h2, h3, h4⟩ := h q (by simp)
    have ih2 := ih (fun q2 hq2 => h q2 (by simp [hq2]))
    simp only [List.cons_append, pollLoop, List.append_eq]
    rw [if_neg (by omega), if_neg (by simp [h2]), if_neg (by simp [h3]), if_neg h4, ih2]
    simp only [Prod.mk.injEq, List.length_cons]
    exact ⟨trivial, by omega⟩

/-- Claim C1: when every poll response stays non-terminal until the
configured timeout elapses, the background task delivers exactly one
message — the distinct still-running notice, not an error — issues no poll
beyond the one that observed the expired deadline (the trailing responses
are never requested), and attempts no content fetch. -/
theorem timeout_reported_once_and_polling_stops
    (title prompt job_id : String) (fetchHttp : String → FetchResp)
    (uploadOk : Bool) (t0 : Int) (pre post : List PollResp) (r : PollResp)
    (hpre : ∀ q ∈ pre, q.httpStatus < 400
        ∧ isSuccessStatus (q.body.get "status") = false
        ∧ isFailStatus (q.body.get "status") = false
        ∧ ¬ (q.now > t0 + 900))
    (hr1 : r.httpStatus < 400)
    (hr2 : isSuccessStatus (r.body.get "status") = false)
    (hr3 : isFailStatus (r.body.get "status") = false)
    (hr4 : r.now > t0 + 900) :
    (track_and_post title prompt job_id ⟨pre ++ r :: post, fetchHttp, uploadOk⟩ t0).msgs
      = [Msg.text ("⏳ Still generating `" ++ prompt ++ "` (job `" ++ job_id
          ++ "`)… I’ll keep checking.")]
  ∧ (track_and_post title prompt job_id ⟨pre ++ r :: post, fetchHttp, uploadOk⟩ t0).polls
      = pre.length + 1
  ∧ (track_and_post title prompt job_id ⟨pre ++ r :: post, fetchHttp, uploadOk⟩ t0).fetchAttempted
      = false := by
  have hone : pollLoop (t0 + 900) (r :: post) = (PollOutcome.timeout, 1) := by
    simp only [pollLoop]
    rw [if_neg (by omega), if_neg (by simp [hr2]), if_neg (by simp [hr3]), if_pos hr4]
  have hpoll : poll_video_until_ready t0 900 (pre ++ r :: post)
      = (PollOutcome.timeout, pre.length + 1) := by
    unfold poll_video_until_ready
    rw [pollLoop_append_nonterminal (t0 + 900) pre (r :: post) hpre, hone]
    simp [Nat.add_comm]
  refine ⟨?_, ?_, ?_⟩ <;> simp [track_and_post, hpoll]

/-- Witness for C1: one in-budget queued poll, then a poll past the
900-second deadline, with a (never-requested) succeeded response behind it. -/
theorem timeout_reported_once_and_polling_stops_witness :
    (∀ q ∈ c1_pre, q.httpStatus < 400
      ∧ isSuccessStatus (q.body.get "status") = false
      ∧ isFailStatus (q.body.get "status") = false
      ∧ ¬ (q.now > (0 : Int) + 900))
  ∧ c1_r.httpStatus < 400
  ∧ isSuccessStatus (c1_r.body.get "status") = false
  ∧ isFailStatus (c1_r.body.get "status") = false
  ∧ c1_r.now > (0 : Int) + 900
  ∧ (track_and_post "Sora 2" "a cat" "job_1" ⟨c1_pre ++ c1_r :: c1_post, c1_http, true⟩ 0).msgs
      = [Msg.text ("⏳ Still generating `" ++ "a cat" ++ "` (job `" ++ "job_1"
          ++ "`)… I’ll keep checking.")]
  ∧ (track_and_post "Sora 2" "a cat" "job_1" ⟨c1_pre ++ c1_r :: c1_post, c1_http, true⟩ 0).polls
      = c1_pre.length + 1
  ∧ (track_and_post "Sora 2" "a cat" "job_1" ⟨c1_pre ++ c1_r :: c1_post, c1_http, true⟩ 0).fetchAttempted
      = false := by
  have t := timeout_reported_once_and_polling_stops "Sora 2" "a cat" "job_1" c1_http
    true 0 c1_pre c1_post c1_r (by decide) (by decide) (by decide) (by decide) (by decide)
  exact ⟨by decide, by decide, by decide, by decide, by decide, t.1, t.2.1, t.2.2⟩

/-- Counterexample to C5 as stated: `if video_url:` (src/bot.py line 159)
is a truthiness test, so when the Asset Locator yields the empty string —
e.g. payload `\x7b"assets": \x7b"video": ""\x7d\x7d` — the program does
not deliver the located URL directly: it falls through to the binary
fetch and posts the bytes as a file. -/
theorem empty_url_falls_through_counterexample :
    extract_video_url c5e_final = some ""
  ∧ (track_and_post "Sora 2" "a cat" "job_1" c5e_env 0).fetchAttempted = true
  ∧ (track_and_post "Sora 2" "a cat" "job_1" c5e_env 0).msgs
      = [Msg.withFile ("✅ **" ++ "Sora 2" ++ "** result for `" ++ "a cat" ++ "` (uploaded)")
          ("job_1" ++ inferExt "video/mp4") [9, 9]]
  ∧ (track_and_post "Sora 2" "a cat" "job_1" c5e_env 0).msgs
      ≠ [Msg.text ("✅ **" ++ "Sora 2" ++ "** result for `" ++ "a cat" ++ "`\n" ++ "")] := by
  have hmsgs : (track_and_post "Sora 2" "a cat" "job_1" c5e_env 0).msgs
      = [Msg.withFile ("✅ **" ++ "Sora 2" ++ "** result for `" ++ "a cat" ++ "` (uploaded)")
          ("job_1" ++ inferExt "video/mp4") [9, 9]] := rfl
  refine ⟨rfl, rfl, hmsgs, ?_⟩
  rw [hmsgs]
  intro h
  injection h with h1 _
  exact Msg.noConfusion h1

/-- Claim C5 (amended): in the background task for a successfully
terminated job, a non-empty URL from the Asset Locator is delivered
directly with no content fetch; when the locator yields nothing — `None`
or the equally falsy empty string — the task falls back to the content
endpoints and, when that fetch succeeds and the upload is accepted,
delivers the bytes as an attached file. -/
theorem success_fast_path_and_binary_fallback
    (title prompt job_id : String) (env : TrackEnv) (t0 : Int) (final : Json)
    (hpoll : (poll_video_until_ready t0 900 env.pollResps).1 = PollOutcome.success final) :
    (∀ url, extract_video_url final = some url → url ≠ "" →
        (track_and_post title prompt job_id env t0).msgs
          = [Msg.text ("✅ **" ++ title ++ "** result for `" ++ prompt ++ "`\n" ++ url)]
      ∧ (track_and_post title prompt job_id env t0).fetchAttempted = false)
  ∧ (extract_video_url final = none →
        (track_and_post title prompt job_id env t0).fetchAttempted = true
      ∧ ∀ data ext, fetch_video_bytes job_id env.fetchHttp = FetchOutcome.ok data ext →
          env.uploadOk = true →
          (track_and_post title prompt job_id env t0).msgs
            = [Msg.withFile ("✅ **" ++ title ++ "** result for `" ++ prompt ++ "` (uploaded)")
                (job_id ++ ext) data])
  ∧ (extract_video_url final = some "" →
        (track_and_post title prompt job_id env t0).fetchAttempted = true
      ∧ ∀ data ext, fetch_video_bytes job_id env.fetchHttp = FetchOutcome.ok data ext →
          env.uploadOk = true →
          (track_and_post title prompt job_id env t0).msgs
            = [Msg.withFile ("✅ **" ++ title ++ "** result for `" ++ prompt ++ "` (uploaded)")
                (job_id ++ ext) data]) := by
  refine ⟨?_, ?_, ?_⟩
  · intro url hext hu
    constructor <;> simp [track_and_post, hpoll, hext, hu]
  · intro hext
    constructor
    · simp only [track_and_post, hpoll, hext]
      cases hf : fetch_video_bytes job_id env.fetchHttp with
      | ok data ext => cases hup : env.uploadOk <;> simp [hup, hf]
      | err le => simp [hf]
    · intro data ext hf hup
      simp [track_and_post, hpoll, hext, hf, hup]
  · intro hext
    constructor
    · simp only [track_and_post, hpoll, hext]
      cases hf : fetch_video_bytes job_id env.fetchHttp with
      | ok data ext => cases hup : env.uploadOk <;> simp [hup, hf]
      | err le => simp [hf]
    · intro data ext hf hup
      simp [track_and_post, hpoll, hext, hf, hup]

/-- Witness for C5 (amended): a succeeded job with a non-empty nested
assets URL (fast path, message carries the URL, no fetch), and a succeeded
job with no URL at all (fallback: content endpoint answers 200, bytes
delivered as a file). -/
theorem success_fast_path_and_binary_fallback_witness :
    (poll_video_until_ready 0 900 c5url_env.pollResps).1 = PollOutcome.success c5url_final
  ∧ extract_video_url c5url_final = some "https://x/y.mp4"
  ∧ ("https://x/y.mp4" : String) ≠ ""
  ∧ (track_and_post "Sora 2" "a cat" "job_1" c5url_env 0).msgs
      = [Msg.text ("✅ **" ++ "Sora 2" ++ "** result for `" ++ "a cat" ++ "`\n" ++ "https://x/y.mp4")]
  ∧ (track_and_post "Sora 2" "a cat" "job_1" c5url_env 0).fetchAttempted = false
  ∧ (poll_video_until_ready 0 900 c5bin_env.pollResps).1 = PollOutcome.success c5bin_final
  ∧ extract_video_url c5bin_final = none
  ∧ (track_and_post "Sora 2" "a cat" "job_1" c5bin_env 0).fetchAttempted = true
  ∧ fetch_video_bytes "job_1" c5bin_env.fetchHttp = FetchOutcome.ok [9, 9] (inferExt "video/mp4")
  ∧ (track_and_post "Sora 2" "a cat" "job_1" c5bin_env 0).msgs
      = [Msg.withFile ("✅ **" ++ "Sora 2" ++ "** result for `" ++ "a cat" ++ "` (uploaded)")
          ("job_1" ++ inferExt "video/mp4") [9, 9]] := by
  have turl := (success_fast_path_and_binary_fallback "Sora 2" "a cat" "job_1"
    c5url_env 0 c5url_final rfl).1 "https://x/y.mp4" rfl (by decide)
  have tbin := (success_fast_path_and_binary_fallback "Sora 2" "a cat" "job_1"
    c5bin_env 0 c5bin_final rfl).2.1 rfl
  exact ⟨rfl, rfl, by decide, turl.1, turl.2, rfl, rfl, tbin.1, rfl,
    tbin.2 [9, 9] (inferExt "video/mp4") rfl rfl⟩

/-- Counterexample to C6 as stated: the failure arm interpolates the whole
terminal payload into the message with no truncation, so one failing job
whose payload holds a 2500-character detail string produces a message
longer than any moderate display bound (in particular longer than the
2000 characters the chat platform accepts). -/
theorem terminal_message_untruncated_counterexample :
    (track_and_post "Sora 2" "a cat" "job_1" c6_env 0).msgs
      = [Msg.text ("⚠️ Error while generating `" ++ "a cat" ++ "`: `"
          ++ "Video job failed: " ++ Json.render c6_failPayload ++ "`")]
  ∧ 2000 < (Json.render c6_failPayload).length := by
  constructor
  · rfl
  · have hren : Json.render c6_failPayload
        = "\x7b" ++ ("\x27" ++ "status" ++ "\x27: " ++ ("\x27" ++ "failed" ++ "\x27") ++ ", "
            ++ ("\x27" ++ "detail" ++ "\x27: " ++ ("\x27" ++ c6_bigDetail ++ "\x27"))) ++ "\x7d" := by
      simp [c6_failPayload, Json.render, renderFields]
    have hlen : c6_bigDetail.length = 2500 := by
      unfold c6_bigDetail
      rw [String.mk_length, List.length_replicate]
    rw [hren]
    simp only [String.length_append]
    rw [hlen]
    decide

/-- Claim C6 (amended): every terminal outcome of the background task —
success by URL, success by upload, upload rejection, fetch failure, poll
failure, job failure, poll error, timeout — delivers exactly one message;
but the raw diagnostic payload in a failure message is interpolated in
full, with no bounded-size truncation. -/
theorem terminal_outcome_single_message_untruncated
    (title prompt job_id : String) (env : TrackEnv) (t0 : Int)
    (h : ((poll_video_until_ready t0 900 env.pollResps).1).isOutOfTrace = false) :
    (track_and_post title prompt job_id env t0).msgs.length = 1
  ∧ (∀ data, (poll_video_until_ready t0 900 env.pollResps).1 = PollOutcome.failure data →
      (track_and_post title prompt job_id env t0).msgs
        = [Msg.text ("⚠️ Error while generating `" ++ prompt ++ "`: `"
            ++ "Video job failed: " ++ Json.render data ++ "`")]) := by
  constructor
  · cases hout : (poll_video_until_ready t0 900 env.pollResps).1 with
    | success final =>
      simp only [track_and_post, hout]
      cases hext : extract_video_url final with
      | some url =>
        simp only [hext]
        by_cases hu : url = ""
        · subst hu
          cases hf : fetch_video_bytes job_id env.fetchHttp with
          | ok data ext => cases hup : env.uploadOk <;> simp [hup, hf]
          | err le => simp [hf]
        · simp [hu]
      | none =>
        simp only [hext]
        cases hf : fetch_video_bytes job_id env.fetchHttp with
        | ok data ext =>
          simp only [hf]
          cases hup : env.uploadOk <;> simp [hup]
        | err le => simp [hf]
    | failure data => simp [track_and_post, hout]
    | pollError st text => simp [track_and_post, hout]
    | timeout => simp [track_and_post, hout]
    | outOfTrace => rw [hout] at h; simp [PollOutcome.isOutOfTrace] at h
  · intro data hout
    simp [track_and_post, hout]

/-- Witness for C6 (amended): a job that times out after one poll delivers
exactly one message. -/
theorem terminal_outcome_single_message_untruncated_witness :
    ((poll_video_until_ready 0 900 c6w_env.pollResps).1).isOutOfTrace = false
  ∧ (track_and_post "Sora 2" "a cat" "job_1" c6w_env 0).msgs.length = 1 :=
  ⟨by decide,
   (terminal_outcome_single_message_untruncated "Sora 2" "a cat" "job_1" c6w_env 0
     (by decide)).1⟩

/-- Counterexample to C4 as stated: the first candidate answers with the
2xx success status 201, yet the loop refuses it — only status exactly 200
wins — so with the second candidate answering 404 the whole call fails
(carrying the 404) instead of returning the first candidate's bytes. -/
theorem fetch_2xx_not_200_counterexample :
    fetchLoop [c4_resp201, c4_resp404] none
      = FetchOutcome.err (some (toString (404 : Nat) ++ " " ++ "not found"))
  ∧ fetchLoop [c4_resp201, c4_resp404] none
      ≠ FetchOutcome.ok c4_resp201.data (inferExt c4_resp201.contentType) := by
  have h1 : fetchLoop [c4_resp201, c4_resp404] none
      = FetchOutcome.err (some (toString (404 : Nat) ++ " " ++ "not found")) := rfl
  refine ⟨h1, ?_⟩
  rw [h1]
  intro h
  exact FetchOutcome.noConfusion h

/-- Claim C4 (amended): `fetch_video_bytes` tries the candidate content
endpoints in their fixed order and returns the first response with HTTP
status exactly 200 (its bytes plus the inferred extension); when every
candidate answers with a non-200 status it fails with an error carrying the
last candidate's status code and body. -/
theorem fetch_first_200_wins_else_last_error
    (job_id : String) (http : String → FetchResp) (r1 r2 : FetchResp)
    (h1 : http ("https://api.openai.com/v1/videos/" ++ job_id ++ "/content") = r1)
    (h2 : http ("https://api.openai.com/v1/videos/" ++ job_id ++ "/content/video") = r2) :
    (r1.httpStatus = 200 →
      fetch_video_bytes job_id http = FetchOutcome.ok r1.data (inferExt r1.contentType))
  ∧ (r1.httpStatus ≠ 200 → r2.httpStatus = 200 →
      fetch_video_bytes job_id http = FetchOutcome.ok r2.data (inferExt r2.contentType))
  ∧ (r1.httpStatus ≠ 200 → r2.httpStatus ≠ 200 →
      fetch_video_bytes job_id http
        = FetchOutcome.err (some (toString r2.httpStatus ++ " " ++ r2.bodyText))) := by
  unfold fetch_video_bytes candidates
  simp only [List.map_cons, List.map_nil, h1, h2]
  refine ⟨?_, ?_, ?_⟩
  · intro hs
    simp [fetchLoop, hs]
  · intro hn hs
    simp [fetchLoop, hn, hs]
  · intro hn1 hn2
    simp [fetchLoop, hn1, hn2]

/-- Witness for C4 (amended): the first candidate answers 404, the second
answers 200, so the second candidate's bytes win. -/
theorem fetch_first_200_wins_else_last_error_witness :
    c4_http ("https://api.openai.com/v1/videos/" ++ "job_1" ++ "/content") = c4_resp404
  ∧ c4_http ("https://api.openai.com/v1/videos/" ++ "job_1" ++ "/content/video") = c4_resp200
  ∧ c4_resp404.httpStatus ≠ 200
  ∧ c4_resp200.httpStatus = 200
  ∧ fetch_video_bytes "job_1" c4_http
      = FetchOutcome.ok c4_resp200.data (inferExt c4_resp200.contentType) :=
  ⟨rfl, rfl, by decide, rfl,
   (fetch_first_200_wins_else_last_error "job_1" c4_http c4_resp404 c4_resp200
     rfl rfl).2.1 (by decide) rfl⟩
